import Mathlib

/-!
Verification of the lspgo message-plane core against its specification.

The definitions below are a shallow embedding of the Go source:

* `jsonrpc2/conn.go` (`Conn.Read`)         → `classify`
* `jsonrpc2/stream.go` (`ReadMessage`,
  `WriteMessage`)                          → `readMessage`, `writeMessage`
* `server/server.go` (`handleRequest`,
  `handleNotification`, `sendResponse`,
  `handleInitialize`, `handleShutdown`,
  `handleExit`,
  `determineServerCapabilities`,
  `Register`, `registerDefaultHandlers`)   → the `Server` definitions
* `server/handler.go` (`typedHandler.invoke`) → `invokeParams`

Raw JSON fragments (ids, params, results) are kept as opaque strings,
exactly as the Go code keeps them as `json.RawMessage`; an absent field is
the empty string (Go's zero value after partial decode) or `none`.
-/

namespace Lspgo

/-- `jsonrpc2.ErrorObject`: code plus human-readable message (the optional
`data` field is never set by the core). -/
structure ErrorObject where
  code : Int
  message : String
deriving DecidableEq, Repr

/-- `jsonrpc2.RequestMessage` after decoding: raw id bytes (`""` when the
field is absent), method name, and raw params (none when absent). -/
structure RequestMessage where
  id : String
  method : String
  params : Option String
deriving DecidableEq, Repr

/-- `jsonrpc2.ResponseMessage`: raw id bytes, raw result JSON (none when
the field is omitted), optional error object. -/
structure ResponseMessage where
  id : String
  result : Option String
  error : Option ErrorObject
deriving DecidableEq, Repr

/-! ## Envelope classifier (`Conn.Read`, jsonrpc2/conn.go lines 46-86)

After `json.Unmarshal` into the partial `base` struct, an absent `method`
is the empty string and an absent `id` is the empty raw byte slice.  The
code branches on `base.Method != ""` and on
`len(base.ID) > 0 && string(base.ID) != "null"`. -/

/-- The four classification outcomes of `Conn.Read`. -/
inductive Classified where
  | request
  | notification
  | response
  | invalidEnvelope
deriving DecidableEq, Repr

/-- `len(base.ID) > 0 && string(base.ID) != "null"` from `Conn.Read`. -/
def idPresentNonNull (idRaw : String) : Bool :=
  idRaw ≠ "" && idRaw ≠ "null"

/-- The classification branch structure of `Conn.Read`
(jsonrpc2/conn.go lines 57-86). -/
def classify (idRaw method : String) : Classified :=
  if method ≠ "" then
    if idPresentNonNull idRaw then Classified.request
    else Classified.notification
  else if idPresentNonNull idRaw then Classified.response
  else Classified.invalidEnvelope

/-! ## Framing codec (`Stream`, jsonrpc2/stream.go)

Bytes are modelled as `List Char` (the payloads the core frames are UTF-8
JSON text).  `fmt.Sprintf("%d", n)` is the decimal printer `natToDec`;
`strconv.Atoi` is `atoi` (idealized to unbounded integers: the 64-bit
overflow failure of `Atoi` is unreachable for any frame that fits in
memory). -/

/-- Decimal digit character for `d < 10` (`'0'` + d). -/
def digitChar (d : Nat) : Char :=
  match d with
  | 0 => '0' | 1 => '1' | 2 => '2' | 3 => '3' | 4 => '4'
  | 5 => '5' | 6 => '6' | 7 => '7' | 8 => '8' | _ => '9'

/-- Decimal representation of a natural number, as produced by
`fmt.Sprintf("%d", n)` for the non-negative lengths the codec prints. -/
def natToDec (n : Nat) : List Char :=
  if _h : n < 10 then [digitChar n]
  else natToDec (n / 10) ++ [digitChar (n % 10)]
decreasing_by exact Nat.div_lt_self (by omega) (by omega)

/-- `Stream.WriteMessage` (jsonrpc2/stream.go lines 287-314) emits
`Content-Length: <n>\r\n\r\n` followed by the `n` payload bytes, in one
buffered write. -/
def writeMessage (p : List Char) : List Char :=
  "Content-Length: ".data ++ natToDec p.length ++ ['\r', '\n', '\r', '\n'] ++ p

/-- `bufio.Reader.ReadString('\n')`: the prefix up to and including the
first `'\n'`, plus the remaining input; `none` when EOF comes first (the
code treats any `ReadString` error as fatal for the message). -/
def readLine : List Char → Option (List Char × List Char)
  | [] => none
  | c :: rest =>
    if c = '\n' then some ([c], rest)
    else
      match readLine rest with
      | some (l, r) => some (c :: l, r)
      | none => none

/-- `strings.TrimSuffix(line, "\r\n")`: drop the two final characters
when the line ends in CRLF, otherwise leave it unchanged. -/
def trimSuffixCRLF (l : List Char) : List Char :=
  if ['\r', '\n'] <:+ l then l.dropLast.dropLast else l

/-- Go's `unicode.IsSpace` restricted to the ASCII space characters
(`strings.TrimSpace` on header fragments). -/
def isSpaceGo (c : Char) : Bool :=
  c = ' ' || c = '\t' || c = '\n' || c = '\x0b' || c = '\x0c' || c = '\r'

/-- `strings.TrimSpace`. -/
def goTrimSpace (l : List Char) : List Char :=
  ((l.dropWhile isSpaceGo).reverse.dropWhile isSpaceGo).reverse

/-- `strings.SplitN(line, ":", 2)`: `none` when no colon is present
(`len(parts) != 2` in the code), otherwise the text before and after the
first colon. -/
def splitColon : List Char → Option (List Char × List Char)
  | [] => none
  | c :: rest =>
    if c = ':' then some ([], rest)
    else
      match splitColon rest with
      | some (a, b) => some (c :: a, b)
      | none => none

/-- Digit run to `Nat` (the accumulator loop inside `strconv.Atoi`). -/
def decFold (l : List Char) : Nat :=
  l.foldl (fun a c => a * 10 + (c.toNat - 48)) 0

/-- All-digit check plus fold, shared by `atoi`'s sign branches. -/
def parseDigits (s : List Char) : Option Nat :=
  if s = [] then none
  else if s.all Char.isDigit then some (decFold s)
  else none

/-- `strconv.Atoi`: optional sign then a non-empty digit run, anything
else fails. -/
def atoi (s : List Char) : Option Int :=
  match s with
  | [] => none
  | c :: rest =>
    if c = '+' then (parseDigits rest).map Int.ofNat
    else if c = '-' then (parseDigits rest).map (fun n => -(n : Int))
    else (parseDigits (c :: rest)).map Int.ofNat

/-- `strings.EqualFold(headerName, "Content-Length")` (ASCII fold). -/
def eqFoldContentLength (s : List Char) : Bool :=
  s.map Char.toLower = "content-length".data

/-- One header line of `Stream.ReadMessage` (lines 246-266): skip a line
with no colon, fail on an unparsable or non-positive `Content-Length`,
record a valid one, ignore any other header.  `none` is the error result;
`some cl` is the (possibly updated) recorded length. -/
def parseHeaderLine (line : List Char) (cl : Option Int) : Option (Option Int) :=
  match splitColon line with
  | none => some cl
  | some (name, value) =>
    if eqFoldContentLength (goTrimSpace name) then
      match atoi (goTrimSpace value) with
      | none => none
      | some len => if len ≤ 0 then none else some (some len)
    else some cl

/-- The header-then-payload loop of `Stream.ReadMessage`
(jsonrpc2/stream.go lines 229-283).  `cl` is `contentLength` with `none`
for the `-1` sentinel.  Fuel bounds the header loop; each iteration
consumes at least one input character, so `input.length + 1` is enough.
Returns the payload and the unread remainder of the input. -/
def readMessageGo : Nat → List Char → Option Int → Option (List Char × List Char)
  | 0, _, _ => none
  | fuel + 1, input, cl =>
    match readLine input with
    | none => none
    | some (line, rest) =>
      let l := trimSuffixCRLF line
      if l = [] then
        match cl with
        | none => none
        | some n =>
          if rest.length < n.toNat then none
          else some (rest.take n.toNat, rest.drop n.toNat)
      else
        match parseHeaderLine l cl with
        | none => none
        | some cl2 => readMessageGo fuel rest cl2

/-- `Stream.ReadMessage` on the available input bytes. -/
def readMessage (input : List Char) : Option (List Char × List Char) :=
  readMessageGo (input.length + 1) input none

/-! ## Lifecycle state and dispatch (server/server.go)

`serverState` is the atomic state variable; `handleRequest` and
`handleNotification` are the dispatcher paths.  A handler invocation is
abstracted as the pair the reflective call produces — optional marshalled
result and optional Go error — since the handlers themselves are user
code. -/

/-- `serverState` (server/server.go lines 31-39). -/
inductive ServerState where
  | uninitialized
  | initializing
  | running
  | shutdown
deriving DecidableEq, Repr

/-- A Go `error` coming back from a handler: either an already protocol
shaped `*jsonrpc2.ErrorObject` or any other error with its display text. -/
inductive HandlerError where
  | protocol (e : ErrorObject)
  | plain (msg : String)
deriving DecidableEq, Repr

/-- Error categorization in `handleRequest` (lines 253-264): protocol
errors pass through verbatim, everything else becomes InternalError. -/
def wrapHandlerError : HandlerError → ErrorObject
  | HandlerError.protocol e => e
  | HandlerError.plain msg => { code := -32603, message := msg }

/-- The `(result, err)` pair returned by `typedHandler.invoke` for the
looked-up handler; the result is its marshalled JSON text. -/
structure InvokeResult where
  result : Option String
  error : Option HandlerError
deriving DecidableEq, Repr

/-- `Server.sendResponse` (lines 334-377): refuse a missing or literal
null id; otherwise echo the id, carry the error if any, else the result,
else an explicit `null` result.  Result marshalling is modelled as the
already-serialized JSON text. -/
def sendResponse (id : String) (result : Option String)
    (respErr : Option ErrorObject) : Option ResponseMessage :=
  if id = "" ∨ id = "null" then none
  else
    some { id := id
           result :=
             match respErr, result with
             | some _, _ => none
             | none, some r => some r
             | none, none => some "null"
           error := respErr }

/-- `Server.handleRequest` (lines 210-267): the state gate, handler
lookup, invocation, error wrapping, and the final `sendResponse`.
`registered` is the handler map restricted to method-name membership and
`invoke` the outcome of the reflective call. -/
def handleRequest (st : ServerState) (registered : String → Bool)
    (invoke : InvokeResult) (req : RequestMessage) : Option ResponseMessage :=
  if st = ServerState.shutdown then
    sendResponse req.id none
      (some { code := -32600, message := "server is shutting down" })
  else if st = ServerState.uninitialized ∧ req.method ≠ "initialize" then
    sendResponse req.id none
      (some { code := -32002, message := "server not initialized" })
  else if st = ServerState.initializing ∧ req.method ≠ "initialize" then
    sendResponse req.id none
      (some { code := -32002, message := "server is initializing" })
  else if ¬ registered req.method then
    sendResponse req.id none
      (some { code := -32601, message := "method not found: " ++ req.method })
  else
    sendResponse req.id invoke.result (invoke.error.map wrapHandlerError)

/-- `Server.handleExit` (lines 551-588) decides the process exit status
from the state observed when the notification is handled. -/
def exitCodeFor (st : ServerState) : Nat :=
  if st = ServerState.shutdown then 0 else 1

/-- Observable effect of `Server.handleNotification`: the message is
dropped, a handler is invoked (never producing a response), or the exit
path terminates the process with the given status. -/
inductive NotificationEffect where
  | dropped
  | invoked
  | exitProcess (code : Nat)
deriving DecidableEq, Repr

/-- `Server.handleNotification` (lines 270-331): during shutdown only
`exit` passes; before initialization only `$/cancelRequest` and
`$/progress` pass; `exit` runs the registered exit handler (the default
`handleExit`, which `os.Exit`s with `exitCodeFor`) or exits 1 if somehow
unregistered; otherwise an unknown method is ignored and a known one
invoked with no response. -/
def handleNotification (st : ServerState) (registered : String → Bool)
    (method : String) : NotificationEffect :=
  if st = ServerState.shutdown ∧ method ≠ "exit" then
    NotificationEffect.dropped
  else if st = ServerState.uninitialized ∧
      ¬ (method = "$/cancelRequest" ∨ method = "$/progress") then
    NotificationEffect.dropped
  else if method = "exit" then
    if registered "exit" then NotificationEffect.exitProcess (exitCodeFor st)
    else NotificationEffect.exitProcess 1
  else if registered method then NotificationEffect.invoked
  else NotificationEffect.dropped

/-- Responses written to the stream while handling one inbound message:
`handleRequest` funnels every path through one `sendResponse`;
`handleNotification` never writes a response (server/server.go lines
270-331 contain no `sendResponse` or response `Write`). -/
inductive InboundMessage where
  | request (req : RequestMessage)
  | notification (method : String) (params : Option String)

/-- The list of responses the server writes for one inbound message. -/
def responsesWritten (st : ServerState) (registered : String → Bool)
    (invoke : InvokeResult) : InboundMessage → List ResponseMessage
  | InboundMessage.request req => (handleRequest st registered invoke req).toList
  | InboundMessage.notification _ _ => []

/-! ## Capability inference (server/server.go `determineServerCapabilities`)

The `protocol` capability structs, restricted to the fields the server
ever sets. -/

/-- `protocol.SaveOptions`. -/
structure SaveOptions where
  includeText : Bool
deriving DecidableEq, Repr

/-- `protocol.TextDocumentSyncOptions` (`change` is the numeric
`TextDocumentSyncKind`: 0 none, 1 full, 2 incremental). -/
structure TextDocumentSyncOptions where
  openClose : Bool
  change : Nat
  save : Option SaveOptions
deriving DecidableEq, Repr

/-- `protocol.HoverOptions` (only the embedded work-done-progress flag,
never set by the server). -/
structure HoverOptions where
  workDoneProgress : Bool := false
deriving DecidableEq, Repr

/-- `protocol.CompletionOptions`. -/
structure CompletionOptions where
  resolveProvider : Bool
  triggerCharacters : List String
deriving DecidableEq, Repr

/-- `protocol.DefinitionOptions`. -/
structure DefinitionOptions where
  workDoneProgress : Bool := false
deriving DecidableEq, Repr

/-- `protocol.CodeActionOptions`. -/
structure CodeActionOptions where
  workDoneProgress : Bool := false
  codeActionKinds : List String
  resolveProvider : Bool
deriving DecidableEq, Repr

/-- `protocol.ExecuteCommandOptions`. -/
structure ExecuteCommandOptions where
  workDoneProgress : Bool := false
  commands : List String
deriving DecidableEq, Repr

/-- `protocol.ServerCapabilities` (the fields the framework sets). -/
structure ServerCapabilities where
  textDocumentSync : Option TextDocumentSyncOptions
  completionProvider : Option CompletionOptions
  hoverProvider : Option HoverOptions
  definitionProvider : Option DefinitionOptions
  codeActionProvider : Option CodeActionOptions
  executeCommandProvider : Option ExecuteCommandOptions
deriving DecidableEq, Repr

/-- `Server.determineServerCapabilities` (server/server.go lines 417-508),
reading the registered-method map as a membership predicate. -/
def determineServerCapabilities (has : String → Bool) : ServerCapabilities :=
  let hasOpen := has "textDocument/didOpen"
  let hasChange := has "textDocument/didChange"
  let hasClose := has "textDocument/didClose"
  let hasSave := has "textDocument/didSave"
  { textDocumentSync :=
      if hasOpen || hasChange || hasClose || hasSave then
        some { openClose := hasOpen || hasClose
               change := 1
               save := if hasSave then some { includeText := false } else none }
      else none
    completionProvider :=
      if has "textDocument/completion" then
        some { resolveProvider := has "completionItem/resolve"
               triggerCharacters := [] }
      else none
    hoverProvider :=
      if has "textDocument/hover" then some {} else none
    definitionProvider :=
      if has "textDocument/definition" then some {} else none
    codeActionProvider :=
      if has "textDocument/codeAction" then
        some { codeActionKinds := []
               resolveProvider := has "codeAction/resolve" }
      else none
    executeCommandProvider :=
      if has "workspace/executeCommand" then
        some { commands := ["ollama/executeAction"] }
      else none }

/-- `protocol.ServerInfo`. -/
structure ServerInfo where
  name : String
  version : String
deriving DecidableEq, Repr

/-- `protocol.InitializeResult`. -/
structure InitializeResult where
  capabilities : ServerCapabilities
  serverInfo : Option ServerInfo
deriving DecidableEq, Repr

/-- `Server.handleInitialize` (server/server.go lines 382-414): the
compare-and-swap Uninitialized→Initializing; on failure the state is left
as it was and an InvalidRequest protocol error is returned.  Returns the
state after the call together with the handler outcome. -/
def handleInitialize (st : ServerState) (registered : String → Bool) :
    ServerState × Except ErrorObject InitializeResult :=
  if st = ServerState.uninitialized then
    (ServerState.initializing,
     Except.ok
       { capabilities := determineServerCapabilities registered
         serverInfo := some { name := "Ollama-LSP-Go", version := "0.1.0" } })
  else
    (st,
     Except.error
       { code := -32600
         message := "server already initialized or is shutting down" })

/-- The `InvokeResult` the dispatcher sees when the looked-up handler is
`handleInitialize`; `enc` is the JSON marshalling of the result. -/
def initializeInvoke (enc : InitializeResult → String) (st : ServerState)
    (registered : String → Bool) : InvokeResult :=
  match (handleInitialize st registered).2 with
  | Except.ok r => { result := some (enc r), error := none }
  | Except.error e => { result := none, error := some (HandlerError.protocol e) }

/-- `Server.handleShutdown` (server/server.go lines 529-548): move any
pre-shutdown state to ShuttingDown (once), then return nil immediately. -/
def handleShutdown (_st : ServerState) : ServerState × Option HandlerError :=
  (ServerState.shutdown, none)

/-! ## Handler registration (server/server.go `Register`,
`registerDefaultHandlers`) -/

/-- `Server.Register` (lines 81-105) on the list of already registered
method names: the duplicate check comes first, then signature validation
(`valid` abstracts `validateHandlerFunc` succeeding). -/
def registerMethod (handlers : List String) (method : String)
    (valid : Bool) : Except String (List String) :=
  if method ∈ handlers then
    Except.error ("handler already registered for method: " ++ method)
  else if valid then Except.ok (handlers ++ [method])
  else Except.error ("invalid handler for method " ++ method)

/-- The six lifecycle methods `registerDefaultHandlers` (lines 68-77)
registers, in registration order. -/
def lifecycleMethods : List String :=
  ["initialize", "initialized", "shutdown", "exit",
   "$/cancelRequest", "$/progress"]

/-- Sequential registration as in `registerDefaultHandlers`, whose
`Register` error results are discarded; the default handlers all pass
validation. -/
def registerAll (handlers : List String) : List String → List String
  | [] => handlers
  | m :: ms =>
    match registerMethod handlers m true with
    | Except.ok h2 => registerAll h2 ms
    | Except.error _ => registerAll handlers ms

/-- The handler map contents right after `NewServer`
(server/server.go lines 43-65). -/
def newServerHandlers : List String :=
  registerAll [] lifecycleMethods

/-! ## Typed parameter decoding (server/handler.go `typedHandler.invoke`)

For a handler with `takesParams` and a declared shape `T` (`paramType`,
already stripped of one level of indirection by `validateHandlerFunc`),
`invoke` allocates `reflect.New(T)` — a pointer to a zero `T` — decodes
the params into it only when they are present and not the literal `null`,
and then passes either the dereferenced value (value-shaped handler) or
the pointer itself (pointer-shaped handler).  `zero` is Go's zero value
of `T` and `dec` the `json.Unmarshal` of `T`. -/

/-- What the handler's parameter slot receives. -/
inductive PassedParam (T : Type) where
  | value (v : T)
  | ptr (v : Option T)
deriving DecidableEq, Repr

/-- `params != nil && len(params) > 0 && string(params) != "null"`
(handler.go lines 446 and 459). -/
def paramsPresent (params : Option String) : Bool :=
  match params with
  | none => false
  | some p => p ≠ "" && p ≠ "null"

/-- `typedHandler.invoke` (handler.go lines 438-515) up to the reflective
call, for a handler with `takesParams` and non-nil `paramType`:
the decoded (or zero) value is passed by value when the declared shape is
not a pointer, and as a non-nil pointer when it is. -/
def invokeParams {T : Type} (zero : T) (dec : String → Option T)
    (declaredPtr : Bool) (params : Option String) :
    Except ErrorObject (PassedParam T) :=
  let decoded : Except ErrorObject T :=
    if paramsPresent params then
      match dec (params.getD "") with
      | some v => Except.ok v
      | none =>
        Except.error { code := -32602, message := "failed to unmarshal params" }
    else Except.ok zero
  decoded.map fun v =>
    if declaredPtr then PassedParam.ptr (some v) else PassedParam.value v

/-! ## Framing codec lemmas -/

theorem digitChar_toNat (d : Nat) (h : d < 10) : (digitChar d).toNat = 48 + d := by
  interval_cases d <;> rfl

theorem digitChar_isDigit (d : Nat) (h : d < 10) : (digitChar d).isDigit = true := by
  interval_cases d <;> rfl

theorem natToDec_spec (n : Nat) :
    natToDec n ≠ [] ∧ (∀ c ∈ natToDec n, c.isDigit = true) ∧
      decFold (natToDec n) = n := by
  induction n using Nat.strong_induction_on with
  | _ n ih =>
    rw [natToDec]
    by_cases h : n < 10
    · simp only [h, dite_true]
      refine ⟨by simp, ?_, ?_⟩
      · intro c hc
        simp only [List.mem_singleton] at hc
        subst hc
        exact digitChar_isDigit n h
      · simp [decFold, digitChar_toNat n h]
    · simp only [h, dite_false]
      have hdiv : n / 10 < n := Nat.div_lt_self (by omega) (by omega)
      obtain ⟨hne, hdig, hfold⟩ := ih (n / 10) hdiv
      refine ⟨by simp, ?_, ?_⟩
      · intro c hc
        rcases List.mem_append.mp hc with hc | hc
        · exact hdig c hc
        · simp only [List.mem_singleton] at hc
          subst hc
          exact digitChar_isDigit (n % 10) (Nat.mod_lt n (by omega))
      · unfold decFold
        rw [List.foldl_append]
        have := digitChar_toNat (n % 10) (Nat.mod_lt n (by omega))
        simp only [List.foldl_cons, List.foldl_nil]
        rw [show List.foldl (fun a c => a * 10 + (c.toNat - 48)) 0 (natToDec (n / 10))
              = decFold (natToDec (n / 10)) from rfl, hfold, this]
        omega

theorem isDigit_not_space (c : Char) (h : c.isDigit = true) : isSpaceGo c = false := by
  simp only [Char.isDigit, decide_eq_true_eq, Bool.and_eq_true] at h
  simp only [isSpaceGo, Bool.or_eq_false_iff, decide_eq_false_iff_not]
  refine ⟨⟨⟨⟨⟨?_, ?_⟩, ?_⟩, ?_⟩, ?_⟩, ?_⟩ <;>
    (rintro rfl; revert h; decide)

theorem readLine_append (l : List Char) (r : List Char) (h : '\n' ∉ l) :
    readLine (l ++ '\n' :: r) = some (l ++ ['\n'], r) := by
  induction l with
  | nil => simp [readLine]
  | cons c cs ih =>
    have hc : c ≠ '\n' := fun hc => h (hc ▸ List.mem_cons_self c cs)
    have hcs : '\n' ∉ cs := fun hm => h (List.mem_cons_of_mem c hm)
    simp [readLine, hc, ih hcs]

theorem trimSuffixCRLF_append (l : List Char) :
    trimSuffixCRLF (l ++ ['\r', '\n']) = l := by
  unfold trimSuffixCRLF
  rw [if_pos (List.suffix_append l ['\r', '\n'])]
  rw [show l ++ ['\r', '\n'] = (l ++ ['\r']) ++ ['\n'] by simp]
  rw [List.dropLast_concat, List.dropLast_concat]

theorem splitColon_append (l r : List Char) (h : ':' ∉ l) :
    splitColon (l ++ ':' :: r) = some (l, r) := by
  induction l with
  | nil => simp [splitColon]
  | cons c cs ih =>
    have hc : c ≠ ':' := fun hc => h (hc ▸ List.mem_cons_self c cs)
    have hcs : ':' ∉ cs := fun hm => h (List.mem_cons_of_mem c hm)
    simp [splitColon, hc, ih hcs]

theorem dropWhile_eq_self_of (p : Char → Bool) (l : List Char)
    (h : ∀ c ∈ l, p c = false) : l.dropWhile p = l := by
  cases l with
  | nil => rfl
  | cons c cs =>
    rw [List.dropWhile_cons, if_neg]
    simp [h c (List.mem_cons_self c cs)]

theorem goTrimSpace_space_digits (l : List Char)
    (h : ∀ c ∈ l, isSpaceGo c = false) : goTrimSpace (' ' :: l) = l := by
  unfold goTrimSpace
  rw [List.dropWhile_cons, if_pos (by rfl)]
  rw [dropWhile_eq_self_of _ _ h]
  rw [dropWhile_eq_self_of _ _ (fun c hc => h c (List.mem_reverse.mp hc))]
  exact List.reverse_reverse l

theorem atoi_natToDec (n : Nat) : atoi (natToDec n) = some (Int.ofNat n) := by
  obtain ⟨hne, hdig, hfold⟩ := natToDec_spec n
  cases hl : natToDec n with
  | nil => exact absurd hl hne
  | cons c cs =>
    have hc : c.isDigit = true := hdig c (hl ▸ List.mem_cons_self c cs)
    have hplus : c ≠ '+' := fun h => by rw [h] at hc; exact absurd hc (by decide)
    have hminus : c ≠ '-' := fun h => by rw [h] at hc; exact absurd hc (by decide)
    rw [atoi, if_neg hplus, if_neg hminus]
    rw [parseDigits, if_neg (by simp), if_pos]
    · rw [show decFold (c :: cs) = n from hl ▸ hfold]
      rfl
    · rw [List.all_eq_true]
      intro x hx
      exact hdig x (hl ▸ hx)

theorem readMessageGo_header_step (f n : Nat) (hn : 0 < n) (tail : List Char)
    (cl : Option Int) :
    readMessageGo (f + 1)
        ("Content-Length: ".data ++ natToDec n ++ '\r' :: '\n' :: tail) cl
      = readMessageGo f tail (some (Int.ofNat n)) := by
  obtain ⟨hne, hdig, -⟩ := natToDec_spec n
  have hnolf : '\n' ∉ ("Content-Length: ".data ++ natToDec n) ++ ['\r'] := by
    intro hm
    rcases List.mem_append.mp hm with hm | hm
    · rcases List.mem_append.mp hm with hm | hm
      · revert hm; decide
      · exact absurd (hdig _ hm) (by decide)
    · simp at hm
  have hinput : "Content-Length: ".data ++ natToDec n ++ '\r' :: '\n' :: tail
      = (("Content-Length: ".data ++ natToDec n) ++ ['\r']) ++ '\n' :: tail := by
    simp
  have htrim : trimSuffixCRLF ((("Content-Length: ".data ++ natToDec n)
        ++ ['\r']) ++ ['\n'])
      = "Content-Length: ".data ++ natToDec n := by
    rw [show (("Content-Length: ".data ++ natToDec n) ++ ['\r']) ++ ['\n']
          = ("Content-Length: ".data ++ natToDec n) ++ ['\r', '\n'] by simp]
    exact trimSuffixCRLF_append _
  have hsplit : splitColon ("Content-Length: ".data ++ natToDec n)
      = some ("Content-Length".data, ' ' :: natToDec n) := by
    rw [show "Content-Length: ".data = "Content-Length".data ++ [':', ' '] by decide,
        List.append_assoc]
    exact splitColon_append _ _ (by decide)
  have hparse : parseHeaderLine ("Content-Length: ".data ++ natToDec n) cl
      = some (some (Int.ofNat n)) := by
    simp only [parseHeaderLine, hsplit,
      goTrimSpace_space_digits _ (fun c hc => isDigit_not_space c (hdig c hc)),
      atoi_natToDec]
    rw [if_pos (by decide), if_neg (by rw [Int.ofNat_eq_natCast]; omega)]
  simp only [readMessageGo, hinput, readLine_append _ _ hnolf, htrim]
  rw [if_neg (by simp [hne]), hparse]

theorem readMessageGo_payload_step (f : Nat) (tail : List Char) (n : Nat) :
    readMessageGo (f + 1) ('\r' :: '\n' :: tail) (some (Int.ofNat n))
      = if tail.length < n then none
        else some (tail.take n, tail.drop n) := by
  have hline : readLine ('\r' :: '\n' :: tail) = some (['\r', '\n'], tail) := by
    simp [readLine]
  have htrim : trimSuffixCRLF ['\r', '\n'] = [] := by decide
  have hnat : (Int.ofNat n).toNat = n := rfl
  simp only [readMessageGo, hline, htrim, eq_self_iff_true, if_true, hnat]

/-- C4: framing round-trip.  Writing any (necessarily non-empty) JSON
payload `P` with `WriteMessage` emits a `Content-Length` header whose
value is `|P|`, a blank CRLF line, then `P`; and `ReadMessage` applied to
those bytes (followed by any further stream contents) returns exactly
`P`, byte for byte, consuming nothing else. -/
theorem framing_roundtrip (p rest : List Char) (hp : p ≠ []) :
    writeMessage p = "Content-Length: ".data ++ natToDec p.length
        ++ ['\r', '\n', '\r', '\n'] ++ p ∧
    readMessage (writeMessage p ++ rest) = some (p, rest) := by
  refine ⟨rfl, ?_⟩
  have hn : 0 < p.length := List.length_pos.mpr hp
  have hform : writeMessage p ++ rest
      = "Content-Length: ".data ++ natToDec p.length
          ++ '\r' :: '\n' :: ('\r' :: '\n' :: (p ++ rest)) := by
    unfold writeMessage; simp
  have hlen : (writeMessage p ++ rest).length ≠ 0 := by
    rw [hform]; simp
  obtain ⟨f, hf⟩ := Nat.exists_eq_succ_of_ne_zero hlen
  unfold readMessage
  rw [show (writeMessage p ++ rest).length + 1 = (f + 1) + 1 by omega, hform]
  rw [readMessageGo_header_step (f + 1) p.length hn _ none]
  rw [readMessageGo_payload_step f (p ++ rest) p.length]
  rw [if_neg (by simp)]
  rw [List.take_left, List.drop_left]

/-- C4 witness: the round-trip evaluated on the concrete JSON payload
`"hello"` with trailing stream bytes `REST`. -/
theorem framing_roundtrip_witness :
    readMessage (writeMessage "\"hello\"".data ++ "REST".data)
      = some ("\"hello\"".data, "REST".data) :=
  (framing_roundtrip "\"hello\"".data "REST".data (by decide)).2

/-! ## Envelope classification -/

/-- C1: the classifier returns Request when a method name and a present,
non-null identifier are both there; Notification when a method name is
there but the identifier is absent or null; Response when no method name
is there but a present non-null identifier is; and rejects every other
shape as an invalid envelope.  (After the partial decode, an absent
method is the empty string and an absent id the empty raw byte string.) -/
theorem classify_cases (idRaw method : String) :
    (method ≠ "" → idRaw ≠ "" → idRaw ≠ "null" →
      classify idRaw method = Classified.request) ∧
    (method ≠ "" → (idRaw = "" ∨ idRaw = "null") →
      classify idRaw method = Classified.notification) ∧
    (method = "" → idRaw ≠ "" → idRaw ≠ "null" →
      classify idRaw method = Classified.response) ∧
    (method = "" → (idRaw = "" ∨ idRaw = "null") →
      classify idRaw method = Classified.invalidEnvelope) := by
  refine ⟨?_, ?_, ?_, ?_⟩
  · intro hm h1 h2
    simp [classify, idPresentNonNull, hm, h1, h2]
  · intro hm h
    rcases h with h | h <;> simp [classify, idPresentNonNull, hm, h]
  · intro hm h1 h2
    simp [classify, idPresentNonNull, hm, h1, h2]
  · intro hm h
    rcases h with h | h <;> simp [classify, idPresentNonNull, hm, h]

/-- C1 witness: the four classification rules at concrete envelopes. -/
theorem classify_cases_witness :
    classify "1" "textDocument/hover" = Classified.request ∧
    classify "null" "textDocument/hover" = Classified.notification ∧
    classify "\"seven\"" "" = Classified.response ∧
    classify "" "" = Classified.invalidEnvelope :=
  ⟨(classify_cases "1" "textDocument/hover").1 (by decide) (by decide) (by decide),
   (classify_cases "null" "textDocument/hover").2.1 (by decide) (Or.inr rfl),
   (classify_cases "\"seven\"" "").2.2.1 rfl (by decide) (by decide),
   (classify_cases "" "").2.2.2 rfl (Or.inl rfl)⟩

/-! ## Lifecycle gating -/

/-- C3: while Uninitialized, every request whose method is not
`initialize` is answered with error code -32002 and message
"server not initialized", echoing the request's identifier; an
`initialize` request passes the gate and reaches its handler. -/
theorem uninitialized_gate (registered : String → Bool) (invoke : InvokeResult)
    (id method : String) (params : Option String)
    (hm : method ≠ "initialize") (h1 : id ≠ "") (h2 : id ≠ "null") :
    handleRequest ServerState.uninitialized registered invoke
        { id := id, method := method, params := params }
      = some { id := id, result := none
               error := some { code := -32002
                               message := "server not initialized" } } ∧
    (registered "initialize" = true →
      handleRequest ServerState.uninitialized registered invoke
          { id := id, method := "initialize", params := params }
        = sendResponse id invoke.result (invoke.error.map wrapHandlerError)) := by
  constructor
  · simp [handleRequest, sendResponse, hm, h1, h2]
  · intro hreg
    simp [handleRequest, hreg, sendResponse, h1, h2]

/-- C3 witness: a `textDocument/hover` request with id 1 before
initialization is answered with -32002. -/
theorem uninitialized_gate_witness :
    handleRequest ServerState.uninitialized (fun _ => true)
        { result := none, error := none }
        { id := "1", method := "textDocument/hover", params := none }
      = some { id := "1", result := none
               error := some { code := -32002
                               message := "server not initialized" } } :=
  (uninitialized_gate (fun _ => true) { result := none, error := none }
    "1" "textDocument/hover" none (by decide) (by decide) (by decide)).1

/-- C7: a second `initialize` while Initializing or Running fails the
compare-and-swap, leaves the state unchanged, and the request is answered
with error code -32600. -/
theorem second_initialize_rejected (st : ServerState)
    (hst : st = ServerState.initializing ∨ st = ServerState.running)
    (registered : String → Bool) (hreg : registered "initialize" = true)
    (enc : InitializeResult → String) (id : String) (params : Option String)
    (h1 : id ≠ "") (h2 : id ≠ "null") :
    (handleInitialize st registered).1 = st ∧
    handleRequest st registered (initializeInvoke enc st registered)
        { id := id, method := "initialize", params := params }
      = some { id := id, result := none
               error := some { code := -32600
                               message := "server already initialized or is shutting down" } } := by
  rcases hst with h | h <;> subst h <;>
    refine ⟨by simp [handleInitialize], ?_⟩ <;>
    simp [handleRequest, initializeInvoke, handleInitialize, sendResponse,
      wrapHandlerError, hreg, h1, h2]

/-- C7 witness: a second `initialize` with id 2 while Running. -/
theorem second_initialize_rejected_witness :
    handleRequest ServerState.running (fun _ => true)
        (initializeInvoke (fun _ => "") ServerState.running (fun _ => true))
        { id := "2", method := "initialize", params := none }
      = some { id := "2", result := none
               error := some { code := -32600
                               message := "server already initialized or is shutting down" } } :=
  (second_initialize_rejected ServerState.running (Or.inr rfl) (fun _ => true)
    rfl (fun _ => "") "2" none (by decide) (by decide)).2

/-- C5: whenever the exit notification actually reaches the exit handler,
the process terminates with status 0 exactly when the state observed at
that moment is ShuttingDown, and with status 1 in the other states that
let the notification through. -/
theorem exit_code_by_state (st : ServerState) (registered : String → Bool)
    (hreg : registered "exit" = true) :
    (st = ServerState.shutdown →
      handleNotification st registered "exit"
        = NotificationEffect.exitProcess 0) ∧
    ((st = ServerState.initializing ∨ st = ServerState.running) →
      handleNotification st registered "exit"
        = NotificationEffect.exitProcess 1) ∧
    (∀ c, handleNotification st registered "exit"
        = NotificationEffect.exitProcess c →
      (c = 0 ↔ st = ServerState.shutdown)) := by
  cases st <;> simp [handleNotification, exitCodeFor, hreg]

/-- C5 witness: `exit` after a successful shutdown terminates with
status 0; `exit` while merely Running terminates with status 1. -/
theorem exit_code_by_state_witness :
    handleNotification ServerState.shutdown (fun _ => true) "exit"
      = NotificationEffect.exitProcess 0 ∧
    handleNotification ServerState.running (fun _ => true) "exit"
      = NotificationEffect.exitProcess 1 :=
  ⟨(exit_code_by_state ServerState.shutdown (fun _ => true) rfl).1 rfl,
   (exit_code_by_state ServerState.running (fun _ => true) rfl).2.1 (Or.inr rfl)⟩

/-- C2 counterexample: a `shutdown` request received while the state is
already ShuttingDown is NOT answered with success — the dispatcher's
shutdown gate rejects it with -32600 "server is shutting down" before the
(idempotent) shutdown handler is ever consulted, so its response carries
an error and not the null success result the claim predicts. -/
theorem shutdown_request_during_shutdown_errors :
    handleRequest ServerState.shutdown (fun _ => true)
        { result := none, error := none }
        { id := "1", method := "shutdown", params := none }
      = some { id := "1", result := none
               error := some { code := -32600
                               message := "server is shutting down" } } ∧
    handleRequest ServerState.shutdown (fun _ => true)
        { result := none, error := none }
        { id := "1", method := "shutdown", params := none }
      ≠ some { id := "1", result := some "null", error := none } := by
  constructor
  · rfl
  · intro h
    simp [handleRequest, sendResponse] at h

/-- C2 (amended): while the state is ShuttingDown, no request at all is
accepted — every request, `shutdown` included, is rejected with error
code -32600 (InvalidRequest); on the notification side only `exit` is
still processed (terminating the process), every other notification is
dropped. -/
theorem shutdown_gate (registered : String → Bool) (invoke : InvokeResult)
    (id method : String) (params : Option String)
    (h1 : id ≠ "") (h2 : id ≠ "null") :
    handleRequest ServerState.shutdown registered invoke
        { id := id, method := method, params := params }
      = some { id := id, result := none
               error := some { code := -32600
                               message := "server is shutting down" } } ∧
    (method ≠ "exit" →
      handleNotification ServerState.shutdown registered method
        = NotificationEffect.dropped) ∧
    (registered "exit" = true →
      handleNotification ServerState.shutdown registered "exit"
        = NotificationEffect.exitProcess 0) := by
  refine ⟨?_, ?_, ?_⟩
  · simp [handleRequest, sendResponse, h1, h2]
  · intro hm
    simp [handleNotification, hm]
  · intro hreg
    simp [handleNotification, exitCodeFor, hreg]

/-- C2 witness: during shutdown a `textDocument/hover` request with id 3
is rejected with -32600, the `initialized` notification is dropped, and
`exit` terminates with status 0. -/
theorem shutdown_gate_witness :
    handleRequest ServerState.shutdown (fun _ => true)
        { result := none, error := none }
        { id := "3", method := "textDocument/hover", params := none }
      = some { id := "3", result := none
               error := some { code := -32600
                               message := "server is shutting down" } } ∧
    handleNotification ServerState.shutdown (fun _ => true) "initialized"
      = NotificationEffect.dropped ∧
    handleNotification ServerState.shutdown (fun _ => true) "exit"
      = NotificationEffect.exitProcess 0 :=
  have h := shutdown_gate (fun _ => true) { result := none, error := none }
    "3" "textDocument/hover" none (by decide) (by decide)
  ⟨h.1, h.2.1 (by decide), h.2.2 rfl⟩

/-! ## Dispatch invariants -/

theorem sendResponse_eq_some {id : String} {res : Option String}
    {err : Option ErrorObject} {resp : ResponseMessage}
    (h : sendResponse id res err = some resp) :
    resp.id = id ∧ id ≠ "" ∧ id ≠ "null" := by
  unfold sendResponse at h
  split_ifs at h with hid
  have h1 : id ≠ "" := fun he => hid (Or.inl he)
  have h2 : id ≠ "null" := fun he => hid (Or.inr he)
  injection h with h
  subst h
  exact ⟨rfl, h1, h2⟩

theorem sendResponse_valid_some (id : String) (res : Option String)
    (err : Option ErrorObject) (h1 : id ≠ "") (h2 : id ≠ "null") :
    ∃ resp, sendResponse id res err = some resp ∧ resp.id = id := by
  unfold sendResponse
  rw [if_neg (by simp [h1, h2])]
  exact ⟨_, rfl, rfl⟩

theorem handleRequest_eq_sendResponse (st : ServerState)
    (registered : String → Bool) (invoke : InvokeResult)
    (req : RequestMessage) :
    ∃ res err, handleRequest st registered invoke req
      = sendResponse req.id res err := by
  unfold handleRequest
  split_ifs <;> exact ⟨_, _, rfl⟩

/-- C6: for every inbound request whose (classifier-guaranteed) identifier
is present and non-null the server writes exactly one response, echoing
that identifier; for an inbound notification it writes none; and no
response whose identifier would be missing or the literal null is ever
written, whatever the handler outcome (including errors). -/
theorem dispatch_response_invariants (st : ServerState)
    (registered : String → Bool) (invoke : InvokeResult)
    (msg : InboundMessage) :
    (∀ idRaw m, classify idRaw m = Classified.request →
      idRaw ≠ "" ∧ idRaw ≠ "null") ∧
    (∀ req, msg = InboundMessage.request req → req.id ≠ "" → req.id ≠ "null" →
      ∃ resp, responsesWritten st registered invoke msg = [resp] ∧
        resp.id = req.id) ∧
    (∀ m p, msg = InboundMessage.notification m p →
      responsesWritten st registered invoke msg = []) ∧
    (∀ resp ∈ responsesWritten st registered invoke msg,
      resp.id ≠ "" ∧ resp.id ≠ "null") := by
  refine ⟨?_, ?_, ?_, ?_⟩
  · intro idRaw m h
    cases hb : idPresentNonNull idRaw with
    | true =>
      simp only [idPresentNonNull, Bool.and_eq_true, decide_eq_true_eq] at hb
      exact hb
    | false =>
      exfalso
      simp only [classify, hb] at h
      split_ifs at h
      simp_all
  · rintro req rfl h1 h2
    obtain ⟨res, err, heq⟩ :=
      handleRequest_eq_sendResponse st registered invoke req
    obtain ⟨resp, hsome, hid⟩ := sendResponse_valid_some req.id res err h1 h2
    refine ⟨resp, ?_, hid⟩
    simp [responsesWritten, heq, hsome]
  · rintro m p rfl
    rfl
  · intro resp hresp
    cases msg with
    | notification m p => simp [responsesWritten] at hresp
    | request req =>
      simp only [responsesWritten, Option.mem_toList] at hresp
      obtain ⟨res, err, heq⟩ :=
        handleRequest_eq_sendResponse st registered invoke req
      rw [heq] at hresp
      obtain ⟨hid, hne1, hne2⟩ := sendResponse_eq_some hresp
      rw [hid]
      exact ⟨hne1, hne2⟩

/-- C6 witness: in Running state a request with id 1 gets exactly one
response echoing id 1, and a notification gets none. -/
theorem dispatch_response_invariants_witness :
    (∃ resp, responsesWritten ServerState.running (fun _ => true)
        { result := none, error := none }
        (InboundMessage.request { id := "1", method := "m", params := none })
      = [resp] ∧ resp.id = "1") ∧
    responsesWritten ServerState.running (fun _ => true)
        { result := none, error := none }
        (InboundMessage.notification "m" none) = [] :=
  ⟨(dispatch_response_invariants ServerState.running (fun _ => true)
      { result := none, error := none }
      (InboundMessage.request { id := "1", method := "m", params := none })).2.1
      _ rfl (by decide) (by decide),
   (dispatch_response_invariants ServerState.running (fun _ => true)
      { result := none, error := none }
      (InboundMessage.notification "m" none)).2.2.1 "m" none rfl⟩

/-! ## Capability inference -/

/-- The registry of a server that registered exactly
`textDocument/codeAction` and `codeAction/resolve` beyond the six
built-in lifecycle handlers. -/
def codeActionRegistry : String → Bool := fun m =>
  (lifecycleMethods ++ ["textDocument/codeAction", "codeAction/resolve"]).contains m

/-- C8: with exactly `textDocument/codeAction` and `codeAction/resolve`
registered beyond the built-in lifecycle handlers, the advertised
capabilities contain a code-action provider with `resolveProvider = true`
and no hover provider; and the `initialize` response carries exactly that
capability descriptor. -/
theorem codeaction_capabilities :
    (determineServerCapabilities codeActionRegistry).codeActionProvider
      = some { codeActionKinds := [], resolveProvider := true } ∧
    (determineServerCapabilities codeActionRegistry).hoverProvider = none ∧
    ((handleInitialize ServerState.uninitialized codeActionRegistry).2.map
        (fun r => r.capabilities))
      = Except.ok (determineServerCapabilities codeActionRegistry) :=
  ⟨rfl, rfl, rfl⟩

/-! ## Handler registration -/

/-- C10: `NewServer` pre-registers exactly the six lifecycle methods
`initialize`, `initialized`, `shutdown`, `exit`, `$/cancelRequest` and
`$/progress`; any later `Register` call for one of those names fails with
the duplicate-handler error (whatever the proposed handler), so the
built-in lifecycle handlers can never be replaced. -/
theorem lifecycle_registration_locked :
    newServerHandlers = lifecycleMethods ∧
    ∀ m ∈ lifecycleMethods, ∀ valid,
      registerMethod newServerHandlers m valid
        = Except.error ("handler already registered for method: " ++ m) := by
  have hnew : newServerHandlers = lifecycleMethods := rfl
  refine ⟨hnew, ?_⟩
  intro m hm valid
  unfold registerMethod
  rw [if_pos (hnew ▸ hm)]

/-- C10 witness: re-registering `shutdown` fails with the duplicate
error. -/
theorem lifecycle_registration_locked_witness :
    registerMethod newServerHandlers "shutdown" true
      = Except.error ("handler already registered for method: " ++ "shutdown") :=
  lifecycle_registration_locked.2 "shutdown" (by decide) true

/-! ## Typed parameter passing -/

/-- C9 counterexample: a handler whose declared shape is a pointer type
and whose params are omitted does NOT receive the nil sentinel —
`reflect.New` always allocates, so the handler receives a non-nil pointer
to a zero-initialized value (here the shape is `Nat` with zero value
`0`). -/
theorem pointer_params_not_nil :
    invokeParams (0 : Nat) (fun _ => none) true none
      = Except.ok (PassedParam.ptr (some 0)) ∧
    invokeParams (0 : Nat) (fun _ => none) true none
      ≠ Except.ok (PassedParam.ptr none) := by
  refine ⟨rfl, ?_⟩
  intro h
  simp [invokeParams, paramsPresent, Except.map] at h

/-- C9 (amended): when the client omits the params field or sends the
literal `null` (or an empty raw payload), a handler that declared a
parameter shape is invoked with the zero-initialized value of that shape;
if the declared shape is a pointer type the handler receives a non-nil
pointer to that zero-initialized value, not the nil sentinel. -/
theorem omitted_params_zero_value {T : Type} (zero : T)
    (dec : String → Option T) (declaredPtr : Bool) (params : Option String)
    (h : params = none ∨ params = some "null" ∨ params = some "") :
    invokeParams zero dec declaredPtr params
      = Except.ok (if declaredPtr then PassedParam.ptr (some zero)
                   else PassedParam.value zero) := by
  rcases h with h | h | h <;> subst h <;>
    simp [invokeParams, paramsPresent, Except.map]

/-- C9 witness: omitted params with a value shape give the zero value;
literal-null params with a pointer shape give a non-nil pointer to the
zero value. -/
theorem omitted_params_zero_value_witness :
    invokeParams (0 : Nat) (fun _ => none) false none
      = Except.ok (PassedParam.value 0) ∧
    invokeParams (0 : Nat) (fun _ => none) true (some "null")
      = Except.ok (PassedParam.ptr (some 0)) :=
  ⟨omitted_params_zero_value 0 (fun _ => none) false none (Or.inl rfl),
   omitted_params_zero_value 0 (fun _ => none) true (some "null")
     (Or.inr (Or.inl rfl))⟩

end Lspgo
